import Mathlib

/-!
Shallow embedding of the Hadron structured-logging pipeline and its dual-mode
identifier scheme (`src/unique.rs` and `src/debug/log.rs`), with theorems
settling the specification's claims about them.

Machine integers are modelled by their two's-complement bit patterns as `Nat`
with explicit `% 2 ^ w` arithmetic; an `i128` pattern `p` denotes a negative
value exactly when `2 ^ 127 ≤ p`.
-/

set_option maxRecDepth 8000

/- ### Generic two's-complement helpers for `i128` patterns -/

/-- Rust `i128::is_negative`, on the two's-complement bit pattern. -/
def i128_is_negative (p : Nat) : Bool := decide (2 ^ 127 ≤ p)

/-- Rust unary negation `-x` on an `i128` bit pattern (two's complement). -/
def i128_neg (p : Nat) : Nat := (2 ^ 128 - p % 2 ^ 128) % 2 ^ 128

/-- Signed value denoted by an `i128` bit pattern. -/
def i128_val (p : Nat) : Int :=
  if 2 ^ 127 ≤ p then (p : Int) - 2 ^ 128 else (p : Int)

/- ### `src/unique.rs`: `UniqueId` -/

/-- Rust `struct UniqueId { _unique: i128 }`; the field stores the
two's-complement bit pattern of the `i128` (so `_unique < 2 ^ 128`). -/
structure UniqueId where
  _unique : Nat
deriving DecidableEq, Repr

namespace UniqueId

/-- Rust `UniqueId::_entropy_mask() = 0x7FFF_FFFF_FFFF_FFFF_FFFF_FFFF_0000_0000`
(equal to `2 ^ 127 - 2 ^ 32`: bits 32–126). -/
def _entropy_mask : Nat := 0x7FFFFFFFFFFFFFFFFFFFFFFF00000000

/-- Rust `UniqueId::_index_mask() = 0xFFFF_FFFF` (`2 ^ 32 - 1`: bits 0–31). -/
def _index_mask : Nat := 0xFFFFFFFF

/-- Rust `UniqueId::_generate_internal()`:
`rand::thread_rng().gen_range(0..i128::MAX) & Self::_entropy_mask()`.
The random draw is modelled by the parameter `raw`, which `gen_range` maps
into `[0, i128::MAX)` (i.e. `[0, 2 ^ 127 - 1)`); the result is a non-negative
pattern. -/
def _generate_internal (raw : Nat) : Nat :=
  (raw % (2 ^ 127 - 1)) &&& _entropy_mask

/-- Rust `UniqueId::get()`: `UniqueId { _unique: Self::_generate_internal() }`. -/
def get (raw : Nat) : UniqueId := ⟨_generate_internal raw⟩

/-- Rust `UniqueId::get_with_index(index: usize)`:
`UniqueId { _unique: (-Self::_generate_internal()) | index as i128 }`.
The `usize → i128` cast preserves the value (patterns agree for `index < 2 ^ 64`). -/
def get_with_index (raw : Nat) (index : Nat) : UniqueId :=
  ⟨i128_neg (_generate_internal raw) ||| index⟩

/-- Rust `UniqueId::_is_indexed()`: `self._unique.is_negative()`. -/
def _is_indexed (u : UniqueId) : Bool := i128_is_negative u._unique

/-- Rust `UniqueId::index_unchecked()`:
`(self._unique & Self::_index_mask()) as u32` (the masked value is `< 2 ^ 32`,
so the `as u32` cast preserves it). -/
def index_unchecked (u : UniqueId) : Nat := u._unique &&& _index_mask

/-- Rust `UniqueId::_entropy_part()`:
`(self._unique & Self::_entropy_mask()) as u128` (the mask clears the sign
bit, so the `as u128` cast preserves the pattern). -/
def _entropy_part (u : UniqueId) : Nat := u._unique &&& _entropy_mask

/-- The `debug_assert!(index < std::u32::MAX as usize)` guarding `set_index`:
true exactly when the assertion passes. -/
def set_index_assert_ok (index : Nat) : Bool := decide (index < 2 ^ 32 - 1)

/-- Rust `UniqueId::set_index(&self, index: usize)` (spec name `reindex`).
In the indexed branch the comparison is `self.index_unchecked() == index as u32`,
a truncating `usize → u32` cast, modelled by `index % 2 ^ 32`; in both `Some`
branches `index as i128` preserves the value.  Source:
`if self._is_indexed() { if self.index_unchecked() == index as u32 { None }
else { Some(UniqueId { _unique: (self._entropy_part() as i128) | index as i128 }) } }
else { Some(UniqueId { _unique: (-(self._entropy_part() as i128) | index as i128) }) }`. -/
def set_index (u : UniqueId) (index : Nat) : Option UniqueId :=
  if u._is_indexed then
    if u.index_unchecked = index % 2 ^ 32 then
      none
    else
      some ⟨u._entropy_part ||| index⟩
  else
    some ⟨i128_neg u._entropy_part ||| index⟩

/-- The `debug_assert!(self._unique.is_negative())` at the top of
`UniqueId::index`: true exactly when the assertion passes. -/
def index_assert_ok (u : UniqueId) : Bool := i128_is_negative u._unique

/-- Rust `UniqueId::index(&self)` (its returned value; the `debug_assert!`
on entry is modelled separately by `index_assert_ok`):
`if self._is_indexed() { Some(self.index_unchecked() as usize) } else { None }`. -/
def index (u : UniqueId) : Option Nat :=
  if u._is_indexed then some u.index_unchecked else none

end UniqueId

/- ### Bit-level arithmetic lemmas used to reason about the masks -/

theorem lor_of_low_zero (a b : Nat) (ha : a % 2 ^ 32 = 0) (hb : b < 2 ^ 32) :
    a ||| b = a + b := by
  apply Nat.eq_of_testBit_eq
  intro j
  have ha2 : 2 ^ 32 * (a / 2 ^ 32) + b = a + b := by omega
  have hsplit := Nat.testBit_mul_pow_two_add (a / 2 ^ 32) hb j
  rw [ha2] at hsplit
  have ha0 : 2 ^ 32 * (a / 2 ^ 32) + 0 = a := by omega
  have hsplita := Nat.testBit_mul_pow_two_add (a / 2 ^ 32) (Nat.pos_pow_of_pos 32 (by norm_num)) j
  rw [ha0] at hsplita
  rw [Nat.testBit_lor, hsplit, hsplita]
  rcases Nat.lt_or_ge j 32 with hj | hj
  · simp [hj]
  · have : ¬ j < 32 := by omega
    have hbf : b.testBit j = false :=
      Nat.testBit_lt_two_pow (lt_of_lt_of_le hb (Nat.pow_le_pow_right (by norm_num) hj))
    simp [this, hbf]

theorem and_index_mask_eq_mod (x : Nat) : x &&& UniqueId._index_mask = x % 2 ^ 32 := by
  have : UniqueId._index_mask = 2 ^ 32 - 1 := by norm_num [UniqueId._index_mask]
  rw [this, Nat.and_pow_two_sub_one_eq_mod]

theorem and_entropy_mask_eq (x : Nat) :
    x &&& UniqueId._entropy_mask = x / 2 ^ 32 % 2 ^ 95 * 2 ^ 32 := by
  apply Nat.eq_of_testBit_eq
  intro j
  rw [Nat.testBit_and]
  have hmask : UniqueId._entropy_mask = 2 ^ 32 * (2 ^ 95 - 1) + 0 := by
    norm_num [UniqueId._entropy_mask]
  have hrhs : x / 2 ^ 32 % 2 ^ 95 * 2 ^ 32 = 2 ^ 32 * (x / 2 ^ 32 % 2 ^ 95) + 0 := by
    ring
  rw [hmask, hrhs, Nat.testBit_mul_pow_two_add _ (Nat.pos_pow_of_pos 32 (by norm_num)) j,
      Nat.testBit_mul_pow_two_add _ (Nat.pos_pow_of_pos 32 (by norm_num)) j]
  rcases Nat.lt_or_ge j 32 with hj | hj
  · simp [hj]
  · have hnj : ¬ j < 32 := by omega
    have hdiv : (x / 2 ^ 32).testBit (j - 32) = x.testBit j := by
      rw [← Nat.shiftRight_eq_div_pow, Nat.testBit_shiftRight]
      congr 1
      omega
    simp only [hnj, if_false, Nat.testBit_mod_two_pow, Nat.testBit_two_pow_sub_one, hdiv]
    rw [Bool.and_comm]

theorem entropy_mask_eq : UniqueId._entropy_mask = 2 ^ 127 - 2 ^ 32 := by
  norm_num [UniqueId._entropy_mask]

/-- The masked entropy draw: low 32 bits zero. -/
theorem generate_internal_mod (raw : Nat) : UniqueId._generate_internal raw % 2 ^ 32 = 0 := by
  unfold UniqueId._generate_internal
  rw [and_entropy_mask_eq]
  exact Nat.mul_mod_left _ _

/-- The masked entropy draw: below `2 ^ 127`, i.e. a non-negative `i128`. -/
theorem generate_internal_lt (raw : Nat) : UniqueId._generate_internal raw < 2 ^ 127 := by
  unfold UniqueId._generate_internal
  rw [and_entropy_mask_eq]
  have h1 : raw % (2 ^ 127 - 1) / 2 ^ 32 % 2 ^ 95 < 2 ^ 95 :=
    Nat.mod_lt _ (by norm_num)
  calc raw % (2 ^ 127 - 1) / 2 ^ 32 % 2 ^ 95 * 2 ^ 32
      ≤ (2 ^ 95 - 1) * 2 ^ 32 := Nat.mul_le_mul_right _ (by omega)
    _ < 2 ^ 127 := by norm_num

theorem generate_internal_ge (raw : Nat) (h : UniqueId._generate_internal raw ≠ 0) :
    2 ^ 32 ≤ UniqueId._generate_internal raw := by
  have := generate_internal_mod raw
  omega

/-- Bit pattern produced by `get_with_index` when the masked entropy is nonzero. -/
theorem gwi_pattern_eq (raw i : Nat) (hi : i < 2 ^ 32)
    (hr : UniqueId._generate_internal raw ≠ 0) :
    (UniqueId.get_with_index raw i)._unique =
      2 ^ 128 - UniqueId._generate_internal raw + i := by
  show i128_neg (UniqueId._generate_internal raw) ||| i = _
  have h1 : UniqueId._generate_internal raw % 2 ^ 32 = 0 := generate_internal_mod raw
  have h2 : UniqueId._generate_internal raw < 2 ^ 127 := generate_internal_lt raw
  have hneg : i128_neg (UniqueId._generate_internal raw) =
      2 ^ 128 - UniqueId._generate_internal raw := by
    unfold i128_neg
    have hm : UniqueId._generate_internal raw % 2 ^ 128 =
        UniqueId._generate_internal raw := Nat.mod_eq_of_lt (by omega)
    rw [hm]
    exact Nat.mod_eq_of_lt (by omega)
  have hmod : (2 ^ 128 - UniqueId._generate_internal raw) % 2 ^ 32 = 0 := by omega
  rw [hneg, lor_of_low_zero _ _ hmod hi]

/-- Bit pattern produced by `get_with_index` when the masked entropy is zero. -/
theorem gwi_pattern_zero (raw i : Nat) (hi : i < 2 ^ 32)
    (hr : UniqueId._generate_internal raw = 0) :
    (UniqueId.get_with_index raw i)._unique = i := by
  show i128_neg (UniqueId._generate_internal raw) ||| i = _
  rw [hr]
  have hneg : i128_neg 0 = 0 := by unfold i128_neg; norm_num
  rw [hneg, lor_of_low_zero 0 i (by norm_num) hi]
  omega

theorem index_unchecked_eq_mod (u : UniqueId) :
    u.index_unchecked = u._unique % 2 ^ 32 := by
  show u._unique &&& UniqueId._index_mask = _
  exact and_index_mask_eq_mod _

/-- Under nonzero masked entropy, `get_with_index` yields a negative (indexed)
pattern whose checked `index` accessor recovers the requested index. -/
theorem gwi_index_some (raw i : Nat) (hi : i < 2 ^ 32)
    (hr : UniqueId._generate_internal raw ≠ 0) :
    (UniqueId.get_with_index raw i)._is_indexed = true ∧
    UniqueId.index (UniqueId.get_with_index raw i) = some i := by
  have hp := gwi_pattern_eq raw i hi hr
  have h1 := generate_internal_mod raw
  have h2 := generate_internal_lt raw
  have h3 := generate_internal_ge raw hr
  have hge : 2 ^ 127 ≤ (UniqueId.get_with_index raw i)._unique := by omega
  have hind : (UniqueId.get_with_index raw i)._is_indexed = true := by
    simp only [UniqueId._is_indexed, i128_is_negative, decide_eq_true_eq]
    exact hge
  refine ⟨hind, ?_⟩
  unfold UniqueId.index
  rw [hind, if_pos rfl, index_unchecked_eq_mod, hp]
  congr 1
  omega

/-- C4 (counterexample): when the generator draws raw value `0`, the masked
entropy is zero and `get_with_index(5)` returns a non-negative Identifier whose
checked `index` accessor yields `none`, not `some 5` — the claim fails for that
entropy draw. -/
theorem C4_counterexample_zero_entropy :
    UniqueId.index (UniqueId.get_with_index 0 5) ≠ some 5 := by decide

/-- C4 (amended): for every index `i < 2 ^ 32` and every entropy draw whose
masked value is nonzero, `get_with_index(i)` is negative (indexed) and its
checked `index` accessor returns `some i`. -/
theorem C4_get_with_index_recovers_index (raw i : Nat) (hi : i < 2 ^ 32)
    (hr : UniqueId._generate_internal raw ≠ 0) :
    (UniqueId.get_with_index raw i)._is_indexed = true ∧
    UniqueId.index (UniqueId.get_with_index raw i) = some i :=
  gwi_index_some raw i hi hr

/-- Witness for C4 at the concrete draw `raw = 2 ^ 32`, index `7`. -/
theorem C4_witness :
    (UniqueId.get_with_index (2 ^ 32) 7)._is_indexed = true ∧
    UniqueId.index (UniqueId.get_with_index (2 ^ 32) 7) = some 7 :=
  C4_get_with_index_recovers_index (2 ^ 32) 7 (by norm_num) (by decide)

set_option maxRecDepth 4000 in
/-- C5 (code bug): re-indexing an already-indexed Identifier drops the sign.
With entropy `2 ^ 32` and index `0`, `set_index 1` returns an Identifier with
pattern `2 ^ 127 - 2 ^ 32 + 1`, which is non-negative: the result is not
indexed, `index()` on it yields `none`, and a second `set_index 1` returns
`some _` rather than the `none` idempotence demands.  The indexed branch of the
source omits the negation present in the unindexed branch. -/
theorem C5_set_index_drops_sign :
    UniqueId.set_index (UniqueId.get_with_index (2 ^ 32) 0) 1 =
      some ⟨2 ^ 127 - 2 ^ 32 + 1⟩ ∧
    (UniqueId.get_with_index (2 ^ 32) 0)._is_indexed = true ∧
    (⟨2 ^ 127 - 2 ^ 32 + 1⟩ : UniqueId)._is_indexed = false ∧
    UniqueId.index ⟨2 ^ 127 - 2 ^ 32 + 1⟩ = none ∧
    UniqueId.set_index (⟨2 ^ 127 - 2 ^ 32 + 1⟩ : UniqueId) 1 ≠ none := by decide

/-- C6 (counterexample): with entropy draw `2 ^ 32` and index `1`, the indexed
Identifier's magnitude with its low 32 bits masked off is `0`, not the entropy
value `2 ^ 32` that was generated for it. -/
theorem C6_counterexample_masked_magnitude :
    ¬ ((i128_val (UniqueId.get_with_index (2 ^ 32) 1)._unique).natAbs
        / 2 ^ 32 * 2 ^ 32 = UniqueId._generate_internal (2 ^ 32)) := by decide

/-- C6 (amended): for nonzero masked entropy `r` and index `i < 2 ^ 32`, the
magnitude of `get_with_index(i)` equals `r - i`, so magnitude plus index
recovers the entropy exactly; the masked magnitude equals `r` only when
`i = 0`, and equals `r - 2 ^ 32` when `i > 0`. -/
theorem C6_magnitude_plus_index_eq_entropy (raw i : Nat) (hi : i < 2 ^ 32)
    (hr : UniqueId._generate_internal raw ≠ 0) :
    (i128_val (UniqueId.get_with_index raw i)._unique).natAbs + i =
      UniqueId._generate_internal raw ∧
    (i128_val (UniqueId.get_with_index raw i)._unique).natAbs / 2 ^ 32 * 2 ^ 32 =
      (if i = 0 then UniqueId._generate_internal raw
       else UniqueId._generate_internal raw - 2 ^ 32) := by
  have hp := gwi_pattern_eq raw i hi hr
  have h1 := generate_internal_mod raw
  have h2 := generate_internal_lt raw
  have h3 := generate_internal_ge raw hr
  have hge : 2 ^ 127 ≤ (UniqueId.get_with_index raw i)._unique := by omega
  have hval : i128_val (UniqueId.get_with_index raw i)._unique =
      - ((UniqueId._generate_internal raw - i : Nat) : Int) := by
    unfold i128_val
    rw [if_pos hge, hp]
    omega
  rw [hval, Int.natAbs_neg, Int.natAbs_ofNat]
  constructor
  · omega
  · by_cases hz : i = 0
    · rw [hz, if_pos rfl]
      omega
    · rw [if_neg hz]
      omega

/-- Witness for C6 at the concrete draw `raw = 2 ^ 32`, index `1`. -/
theorem C6_witness :
    (i128_val (UniqueId.get_with_index (2 ^ 32) 1)._unique).natAbs + 1 =
      UniqueId._generate_internal (2 ^ 32) ∧
    (i128_val (UniqueId.get_with_index (2 ^ 32) 1)._unique).natAbs / 2 ^ 32 * 2 ^ 32 =
      (if (1 : Nat) = 0 then UniqueId._generate_internal (2 ^ 32)
       else UniqueId._generate_internal (2 ^ 32) - 2 ^ 32) :=
  C6_magnitude_plus_index_eq_entropy (2 ^ 32) 1 (by norm_num) (by decide)

/-- C7 (code bug): the checked accessor `index()` carries
`debug_assert!(self._unique.is_negative())`, which fails on every Unindexed
(non-negative) Identifier — e.g. one generated from entropy draw `2 ^ 32` —
even though the function's own `else` branch returns `None` for exactly those
values. -/
theorem C7_index_debug_assert_fires :
    UniqueId.index_assert_ok (UniqueId.get (2 ^ 32)) = false ∧
    UniqueId.index (UniqueId.get (2 ^ 32)) = none := by decide

/-- C8: every Identifier returned by `get()` is non-negative (not indexed) and
has its low 32 bits equal to zero, for every value the entropy source draws. -/
theorem C8_get_nonnegative_low32_zero (raw : Nat) :
    (UniqueId.get raw)._is_indexed = false ∧ (UniqueId.get raw)._unique % 2 ^ 32 = 0 := by
  constructor
  · simp only [UniqueId.get, UniqueId._is_indexed, i128_is_negative,
      decide_eq_false_iff_not, not_le]
    exact generate_internal_lt raw
  · exact generate_internal_mod raw

/-- C10: when the entropy draw masks to zero, `get_with_index(i)` is
non-negative, hence classified Unindexed, and its checked `index` accessor
returns `none` although index `i` was requested. -/
theorem C10_zero_entropy_gives_unindexed (raw i : Nat) (hi : i < 2 ^ 32)
    (hr : UniqueId._generate_internal raw = 0) :
    (UniqueId.get_with_index raw i)._is_indexed = false ∧
    UniqueId.index (UniqueId.get_with_index raw i) = none := by
  have hp := gwi_pattern_zero raw i hi hr
  have hind : (UniqueId.get_with_index raw i)._is_indexed = false := by
    simp only [UniqueId._is_indexed, i128_is_negative, decide_eq_false_iff_not, not_le, hp]
    calc i < 2 ^ 32 := hi
      _ < 2 ^ 127 := by norm_num
  refine ⟨hind, ?_⟩
  unfold UniqueId.index
  rw [hind]
  simp

/-- Witness for C10 at the concrete draw `raw = 0`, index `5`. -/
theorem C10_witness :
    (UniqueId.get_with_index 0 5)._is_indexed = false ∧
    UniqueId.index (UniqueId.get_with_index 0 5) = none :=
  C10_zero_entropy_gives_unindexed 0 5 (by norm_num) (by decide)

/- ### `src/debug/log.rs` (`mod structured`): data model -/

/-- Rust `std::time::Duration` as carried in log messages: whole seconds
(`u64`) and subsecond nanoseconds (`u32`), which is also how serde
serializes it. -/
structure Duration where
  secs : Nat
  nanos : Nat
deriving DecidableEq, Repr

/-- Rust `struct StructuredPanicInfo { line: u32, file: String, message:
String, backtrace: String }`. -/
structure StructuredPanicInfo where
  line : Nat
  file : String
  message : String
  backtrace : String
deriving DecidableEq, Repr

/-- Rust `enum LogKind { Error, Warning, Information, Panic(Arc<StructuredPanicInfo>),
State(String) }`; the `Arc` is a shared pointer to the payload and is modelled
by the payload itself. -/
inductive LogKind where
  | Error : LogKind
  | Warning : LogKind
  | Information : LogKind
  | Panic : StructuredPanicInfo → LogKind
  | State : String → LogKind
deriving DecidableEq, Repr

/-- Rust `struct StructuredLogMessage { time, level, topic, message }`. -/
structure StructuredLogMessage where
  time : Duration
  level : LogKind
  topic : String
  message : String
deriving DecidableEq, Repr

/-- Rust `struct StructuredLogOutput { index: usize, message: StructuredLogMessage }`. -/
structure StructuredLogOutput where
  index : Nat
  message : StructuredLogMessage
deriving DecidableEq, Repr

/-- Rust `struct LogData { id: UniqueId, timestamp: chrono::DateTime<chrono::Utc>,
messages: Vec<StructuredLogOutput> }`; the timestamp is modelled by its RFC3339
serialization string. -/
structure LogData where
  id : UniqueId
  timestamp : String
  messages : List StructuredLogOutput
deriving DecidableEq, Repr

namespace structured

/-- Rust `let skip = 1usize;` in `log_receiver`. -/
def skip : Nat := 1

/-- The `panicking = match &message.level { LogKind::Panic(_) => true, _ => false }`
test in `log_receiver`. -/
def is_panic_level (m : StructuredLogMessage) : Bool :=
  match m.level with
  | LogKind.Panic _ => true
  | _ => false

/-- State of `log_receiver`'s loop together with the contents of `log.json`.
The Consumer is the file's only reader and writer (spec §5), so the file's
contents are part of the loop state: `read_log_data` returns `fileData` and
`write_log_data_truncated` replaces it. -/
structure ReceiverState where
  buffer : List StructuredLogOutput
  message_count : Nat
  next_write : Nat
  fileData : LogData
deriving DecidableEq, Repr

/-- Result of one loop iteration: the new state, whether this iteration
durably wrote the buffer, and the `panicking` flag (which breaks the loop). -/
structure StepResult where
  state : ReceiverState
  flushed : Bool
  panicking : Bool
deriving DecidableEq, Repr

/-- One iteration of the `loop` in `log_receiver` after `rx.recv()` returned
`message`: set `panicking`, push `StructuredLogOutput { index: message_count,
message }`, increment `message_count`, and if `panicking || buffer.len() >
next_write` advance `next_write` by `skip`, read the file, append the buffer to
its `messages`, rewrite the file truncated, and clear the buffer. -/
def receiver_step (st : ReceiverState) (message : StructuredLogMessage) : StepResult :=
  let panicking := is_panic_level message
  let output : StructuredLogOutput := ⟨st.message_count, message⟩
  let buffer := st.buffer ++ [output]
  let message_count := st.message_count + 1
  if panicking || decide (buffer.length > st.next_write) then
    let data := st.fileData
    let data2 : LogData := { data with messages := data.messages ++ buffer }
    ⟨⟨[], message_count, st.next_write + skip, data2⟩, true, panicking⟩
  else
    ⟨⟨buffer, message_count, st.next_write, st.fileData⟩, false, panicking⟩

/-- The receive loop of `log_receiver`, driven by the (finite) sequence of
messages that arrive on the channel, in arrival order; the loop breaks after
processing a Panic message.  Returns the final state and, for each processed
message, whether that iteration flushed. -/
def receiver_run (st : ReceiverState) : List StructuredLogMessage → ReceiverState × List Bool
  | [] => (st, [])
  | m :: ms =>
    let r := receiver_step st m
    if r.panicking then (r.state, [r.flushed])
    else
      let rest := receiver_run r.state ms
      (rest.1, r.flushed :: rest.2)

/-- The state of `log_receiver` right after `create_log_file`: empty buffer,
zero counters, and a fresh empty document on disk (its session id comes from
`UniqueId::get()`, its timestamp from `chrono::Utc::now()`; both are
parameters here). -/
def initial_state (id : UniqueId) (ts : String) : ReceiverState :=
  ⟨[], 0, 0, ⟨id, ts, []⟩⟩

/-- Rust `structured::log_receiver` (log.rs 262-315) as a function of the
arriving message sequence. -/
def log_receiver (id : UniqueId) (ts : String) (ms : List StructuredLogMessage) :
    ReceiverState × List Bool :=
  receiver_run (initial_state id ts) ms

end structured

/-- Unfolding equation for one loop iteration. -/
theorem receiver_step_eq (st : structured.ReceiverState) (m : StructuredLogMessage) :
    structured.receiver_step st m =
      (if structured.is_panic_level m ||
          decide ((st.buffer ++ [(⟨st.message_count, m⟩ : StructuredLogOutput)]).length >
            st.next_write) then
        ⟨⟨[], st.message_count + 1, st.next_write + structured.skip,
          { st.fileData with messages := st.fileData.messages ++
              (st.buffer ++ [⟨st.message_count, m⟩]) }⟩, true, structured.is_panic_level m⟩
      else
        ⟨⟨st.buffer ++ [⟨st.message_count, m⟩], st.message_count + 1, st.next_write,
          st.fileData⟩, false, structured.is_panic_level m⟩) := rfl

/-- The `panicking` flag of an iteration depends only on the message. -/
theorem receiver_step_panicking (st : structured.ReceiverState)
    (m : StructuredLogMessage) :
    (structured.receiver_step st m).panicking = structured.is_panic_level m := by
  rw [receiver_step_eq]
  split <;> rfl

/-- The count after an iteration. -/
theorem receiver_step_count (st : structured.ReceiverState) (m : StructuredLogMessage) :
    (structured.receiver_step st m).state.message_count = st.message_count + 1 := by
  rw [receiver_step_eq]
  split <;> rfl

/-- The document-plus-buffer entry list after an iteration: the old list with
one output appended, whether or not the iteration flushed. -/
theorem receiver_step_entries (st : structured.ReceiverState) (m : StructuredLogMessage) :
    (structured.receiver_step st m).state.fileData.messages ++
        (structured.receiver_step st m).state.buffer =
      (st.fileData.messages ++ st.buffer) ++ [⟨st.message_count, m⟩] := by
  rw [receiver_step_eq]
  split
  · simp
  · simp

/-- Unfolding equation for the loop on a nonempty arrival sequence. -/
theorem receiver_run_cons (st : structured.ReceiverState) (m : StructuredLogMessage)
    (ms : List StructuredLogMessage) :
    structured.receiver_run st (m :: ms) =
      (if (structured.receiver_step st m).panicking then
        ((structured.receiver_step st m).state, [(structured.receiver_step st m).flushed])
      else
        ((structured.receiver_run (structured.receiver_step st m).state ms).1,
         (structured.receiver_step st m).flushed ::
           (structured.receiver_run (structured.receiver_step st m).state ms).2)) := rfl

/-- Run invariant for the consumer loop: the persisted document followed by the
in-memory buffer always carries the indices `0, 1, 2, …` in order, the count
grows by one per processed message, and the carried messages are exactly the
processed prefix of the arrival sequence. -/
theorem receiver_run_index_invariant (ms : List StructuredLogMessage)
    (st : structured.ReceiverState)
    (hidx : (st.fileData.messages ++ st.buffer).map StructuredLogOutput.index =
      List.range st.message_count) :
    (((structured.receiver_run st ms).1.fileData.messages ++
        (structured.receiver_run st ms).1.buffer).map StructuredLogOutput.index =
      List.range (structured.receiver_run st ms).1.message_count) ∧
    (structured.receiver_run st ms).1.message_count =
      st.message_count + (structured.receiver_run st ms).2.length ∧
    ((structured.receiver_run st ms).1.fileData.messages ++
        (structured.receiver_run st ms).1.buffer).map StructuredLogOutput.message =
      (st.fileData.messages ++ st.buffer).map StructuredLogOutput.message ++
        ms.take (structured.receiver_run st ms).2.length := by
  induction ms generalizing st with
  | nil => simp [structured.receiver_run, hidx]
  | cons m ms ih =>
    have hstepidx : ((structured.receiver_step st m).state.fileData.messages ++
        (structured.receiver_step st m).state.buffer).map StructuredLogOutput.index =
        List.range (structured.receiver_step st m).state.message_count := by
      rw [receiver_step_entries, receiver_step_count, List.map_append, hidx,
        List.range_succ]
      rfl
    have hstepmsg : ((structured.receiver_step st m).state.fileData.messages ++
        (structured.receiver_step st m).state.buffer).map StructuredLogOutput.message =
        (st.fileData.messages ++ st.buffer).map StructuredLogOutput.message ++ [m] := by
      rw [receiver_step_entries, List.map_append]
      rfl
    rw [receiver_run_cons]
    by_cases hp : (structured.receiver_step st m).panicking = true
    · rw [if_pos hp]
      refine ⟨hstepidx, ?_, ?_⟩
      · simp [receiver_step_count]
      · simpa using hstepmsg
    · rw [if_neg hp]
      have hrest := ih (structured.receiver_step st m).state hstepidx
      refine ⟨hrest.1, ?_, ?_⟩
      · have h2 := hrest.2.1
        rw [receiver_step_count] at h2
        simp only [List.length_cons]
        omega
      · rw [hrest.2.2, hstepmsg]
        simp [List.take_succ_cons]

/-- C1: in every execution of the Consumer loop, the sequence index assigned to
the n-th received message is exactly n — the indices carried by the persisted
document followed by the still-buffered entries are `0, 1, …, count - 1` with
no gaps and no repetition, the count equals the number of processed messages,
and the carried messages are the processed prefix of the arrival order,
regardless of how many flushes occurred. -/
theorem C1_sequence_indices (id : UniqueId) (ts : String)
    (ms : List StructuredLogMessage) :
    (((structured.log_receiver id ts ms).1.fileData.messages ++
        (structured.log_receiver id ts ms).1.buffer).map StructuredLogOutput.index =
      List.range (structured.log_receiver id ts ms).1.message_count) ∧
    (structured.log_receiver id ts ms).1.message_count =
      (structured.log_receiver id ts ms).2.length ∧
    ((structured.log_receiver id ts ms).1.fileData.messages ++
        (structured.log_receiver id ts ms).1.buffer).map StructuredLogOutput.message =
      ms.take (structured.log_receiver id ts ms).2.length := by
  have h := receiver_run_index_invariant ms (structured.initial_state id ts)
    (by simp [structured.initial_state])
  refine ⟨h.1, ?_, ?_⟩
  · simpa [structured.log_receiver, structured.initial_state] using h.2.1
  · simpa [structured.log_receiver, structured.initial_state] using h.2.2

/-- Claim C2 as the spec words it: processing each message, flush iff a Panic
was just buffered or the TOTAL number of messages received so far exceeds a
running threshold advanced by `skip` after each flush.  `n` counts messages
received before this one and `f` counts flushes performed; the loop stops
after a Panic message. -/
def claim_total_flush_policy : List StructuredLogMessage → Nat → Nat → List Bool
  | [], _, _ => []
  | m :: ms, n, f =>
    let fl := structured.is_panic_level m || decide (n + 1 > structured.skip * f)
    if structured.is_panic_level m then [fl]
    else fl :: claim_total_flush_policy ms (n + 1) (if fl then f + 1 else f)

/-- The amended flush policy (what the code's `buffer.len() > next_write` test
amounts to): flush iff a Panic was just buffered or the number of messages in
the buffer — received since the last flush, current one included — exceeds the
running threshold advanced by `skip` per flush.  `n` counts messages received
before this one, `p` messages already persisted, `f` flushes performed. -/
def buffered_flush_policy : List StructuredLogMessage → Nat → Nat → Nat → List Bool
  | [], _, _, _ => []
  | m :: ms, n, p, f =>
    let fl := structured.is_panic_level m || decide (n + 1 - p > structured.skip * f)
    if structured.is_panic_level m then [fl]
    else fl :: buffered_flush_policy ms (n + 1) (if fl then n + 1 else p)
      (if fl then f + 1 else f)

/-- The flush decisions of the consumer loop coincide with
`buffered_flush_policy` computed from counts alone, provided the state is
consistent: buffer size = received − persisted, threshold = `skip` × flushes. -/
theorem receiver_run_flags (ms : List StructuredLogMessage)
    (st : structured.ReceiverState) (f : Nat)
    (hple : st.fileData.messages.length ≤ st.message_count)
    (hbuf : st.buffer.length = st.message_count - st.fileData.messages.length)
    (hnw : st.next_write = structured.skip * f) :
    (structured.receiver_run st ms).2 =
      buffered_flush_policy ms st.message_count st.fileData.messages.length f := by
  induction ms generalizing st f with
  | nil => simp [structured.receiver_run, buffered_flush_policy]
  | cons m ms ih =>
    have hcond : (decide ((st.buffer ++ [(⟨st.message_count, m⟩ : StructuredLogOutput)]).length >
          st.next_write)) =
        (decide (st.message_count + 1 - st.fileData.messages.length > structured.skip * f)) := by
      rw [decide_eq_decide]
      simp only [List.length_append, List.length_cons, List.length_nil]
      omega
    rw [receiver_run_cons]
    by_cases hpan : structured.is_panic_level m = true
    · have hp : (structured.receiver_step st m).panicking = true := by
        rw [receiver_step_panicking]; exact hpan
      rw [if_pos hp]
      have hfl : (structured.receiver_step st m).flushed = true := by
        rw [receiver_step_eq, if_pos (by rw [hpan]; rfl)]
      rw [hfl]
      show _ = buffered_flush_policy (m :: ms) _ _ _
      unfold buffered_flush_policy
      rw [if_pos hpan, hpan]
      simp
    · have hp : ¬ (structured.receiver_step st m).panicking = true := by
        rw [receiver_step_panicking]; exact hpan
      rw [if_neg hp]
      show _ = buffered_flush_policy (m :: ms) _ _ _
      unfold buffered_flush_policy
      rw [if_neg hpan]
      have hpanf : structured.is_panic_level m = false := by
        exact Bool.eq_false_iff.mpr hpan
      by_cases hc : (st.message_count + 1 - st.fileData.messages.length >
          structured.skip * f)
      · have hcb : (structured.is_panic_level m ||
            decide ((st.buffer ++ [(⟨st.message_count, m⟩ : StructuredLogOutput)]).length >
              st.next_write)) = true := by
          rw [hcond, hpanf]
          simpa using hc
        have hstep2 : structured.receiver_step st m =
            ⟨⟨[], st.message_count + 1, st.next_write + structured.skip,
              { st.fileData with messages := st.fileData.messages ++
                  (st.buffer ++ [⟨st.message_count, m⟩]) }⟩, true,
              structured.is_panic_level m⟩ := by
          rw [receiver_step_eq, if_pos hcb]
        have hres := ih ⟨[], st.message_count + 1, st.next_write + structured.skip,
            { st.fileData with messages := st.fileData.messages ++
                (st.buffer ++ [⟨st.message_count, m⟩]) }⟩ (f + 1)
          (by simp only [List.length_append, List.length_cons, List.length_nil]; omega)
          (by simp only [List.length_append, List.length_cons, List.length_nil]; omega)
          (by simp only [structured.skip] at hnw ⊢; omega)
        rw [hstep2]
        simp only [List.length_append, List.length_cons, List.length_nil] at hres
        have harg : st.fileData.messages.length + (st.buffer.length + (0 + 1)) =
            st.message_count + 1 := by omega
        rw [harg] at hres
        rw [hres]
        have hflpol : (structured.is_panic_level m ||
            decide (st.message_count + 1 - st.fileData.messages.length >
              structured.skip * f)) = true := by
          rw [hpanf]
          simpa using hc
        rw [hflpol]
        simp
      · have hcb : (structured.is_panic_level m ||
            decide ((st.buffer ++ [(⟨st.message_count, m⟩ : StructuredLogOutput)]).length >
              st.next_write)) = false := by
          rw [hcond, hpanf]
          simpa using hc
        have hstep2 : structured.receiver_step st m =
            ⟨⟨st.buffer ++ [⟨st.message_count, m⟩], st.message_count + 1, st.next_write,
              st.fileData⟩, false, structured.is_panic_level m⟩ := by
          rw [receiver_step_eq, if_neg (by rw [hcb]; exact Bool.false_ne_true)]
        have hres := ih ⟨st.buffer ++ [⟨st.message_count, m⟩], st.message_count + 1,
            st.next_write, st.fileData⟩ f
          (by simp only []; omega)
          (by simp only [List.length_append, List.length_cons, List.length_nil]; omega)
          hnw
        rw [hstep2]
        simp only [] at hres
        rw [hres]
        have hflpol : (structured.is_panic_level m ||
            decide (st.message_count + 1 - st.fileData.messages.length >
              structured.skip * f)) = false := by
          rw [hpanf]
          simpa using hc
        rw [hflpol]
        simp

/-- C2 (counterexample): feed two Information messages.  The code flushes on
the first message (buffer 1 > threshold 0) but not on the second (buffer 1,
threshold 1), although by then the total number of messages received (2)
exceeds the running threshold (1): the claim's total-received flush policy
demands a flush there, so the claim as stated is false. -/
theorem C2_counterexample_total_vs_buffer :
    (structured.log_receiver ⟨0⟩ "t"
        [⟨⟨0, 0⟩, LogKind.Information, "general", "a"⟩,
         ⟨⟨0, 0⟩, LogKind.Information, "general", "b"⟩]).2 = [true, false] ∧
    claim_total_flush_policy
        [⟨⟨0, 0⟩, LogKind.Information, "general", "a"⟩,
         ⟨⟨0, 0⟩, LogKind.Information, "general", "b"⟩] 0 0 = [true, true] ∧
    (structured.log_receiver ⟨0⟩ "t"
        [⟨⟨0, 0⟩, LogKind.Information, "general", "a"⟩,
         ⟨⟨0, 0⟩, LogKind.Information, "general", "b"⟩]).2 ≠
      claim_total_flush_policy
        [⟨⟨0, 0⟩, LogKind.Information, "general", "a"⟩,
         ⟨⟨0, 0⟩, LogKind.Information, "general", "b"⟩] 0 0 := by
  exact ⟨rfl, rfl, by decide⟩

/-- C2 (amended): in every iteration of the Consumer loop the buffer is
durably written iff the message just buffered is of Panic kind, or the number
of messages accumulated in the buffer since the last flush (current one
included) exceeds the running threshold, which is advanced by the constant
`skip` after each flush. -/
theorem C2_flush_policy_amended (id : UniqueId) (ts : String)
    (ms : List StructuredLogMessage) :
    (structured.log_receiver id ts ms).2 = buffered_flush_policy ms 0 0 0 := by
  have h := receiver_run_flags ms (structured.initial_state id ts) 0
    (by simp [structured.initial_state]) (by simp [structured.initial_state])
    (by simp [structured.initial_state])
  simpa [structured.log_receiver, structured.initial_state] using h

/- ### The global pipeline singleton: `GLOBAL_LOG`, `get`, `join_global_log_handle` -/

/-- Rust `struct LogHandle { tx: Sender<…>, join_handle: Option<JoinHandle<()>> }`.
The channel (and the consumer thread spawned on it) is identified by the
number drawn from the world's fresh-name supply at creation. -/
structure LogHandle where
  channel : Nat
deriving DecidableEq, Repr

/-- The process-wide state relevant to the singleton: the contents of the
`GLOBAL_LOG` mutex (`Option<LogHandle>`) and a fresh-name supply counting the
channels/consumer threads created so far. -/
structure PipelineWorld where
  global_log : Option LogHandle
  next_channel : Nat
deriving DecidableEq, Repr

/-- Result of a call to the global accessor `get()`: the world afterwards, the
channel of the `Logger`'s send-endpoint, and whether the call created a fresh
channel and spawned a fresh `log_receiver` consumer thread. -/
structure GetResult where
  world : PipelineWorld
  logger_channel : Nat
  spawned : Bool
deriving DecidableEq, Repr

/-- Rust `get()` (log.rs 118–142): under the `GLOBAL_LOG` lock, if a handle is
present, clone its sender; otherwise create a channel, spawn
`structured::log_receiver` on it, store the new `LogHandle`, install the panic
hook, and return the new sender. -/
def get_step (w : PipelineWorld) : GetResult :=
  match w.global_log with
  | some sink => ⟨w, sink.channel, false⟩
  | none => ⟨⟨some ⟨w.next_channel⟩, w.next_channel + 1⟩, w.next_channel, true⟩

/-- Rust `join_global_log_handle()` (log.rs 183–194): `guard.take()` removes
the handle from `GLOBAL_LOG`, leaving `None` behind, and joins the consumer
thread; if no handle is present the `expect("no log handle")` panics, modelled
by `none`. -/
def join_step (w : PipelineWorld) : Option PipelineWorld :=
  match w.global_log with
  | some _ => some ⟨none, w.next_channel⟩
  | none => none

/-- C3 (counterexample): start uninitialized, acquire a handle (spawning
consumer/channel 0), then run the panic path's join.  `GLOBAL_LOG` is left
`None`, and the very next `get()` does not fail: it spawns a brand-new channel
and consumer thread (number 1) and returns a usable handle — there is a
restart path, so Terminated is not absorbing. -/
theorem C3_counterexample_restart :
    (get_step ⟨none, 0⟩).world = ⟨some ⟨0⟩, 1⟩ ∧
    join_step (get_step ⟨none, 0⟩).world = some ⟨none, 1⟩ ∧
    (get_step ⟨none, 1⟩).spawned = true ∧
    (get_step ⟨none, 1⟩).world.global_log = some ⟨1⟩ := by decide

/-- C3 (amended): after a panic-induced shutdown — `join_global_log_handle`
takes the handle out of `GLOBAL_LOG` and joins the consumer — the pipeline is
back in the uninitialized state, and any subsequent call to the global
accessor does not fail fast: it re-initializes, creating a fresh channel and
spawning a fresh Consumer thread. -/
theorem C3_join_then_get_restarts (w w2 : PipelineWorld)
    (h : join_step w = some w2) :
    w2.global_log = none ∧
    (get_step w2).spawned = true ∧
    (get_step w2).world.global_log = some ⟨w.next_channel⟩ ∧
    (get_step w2).logger_channel = w.next_channel := by
  unfold join_step at h
  match hw : w.global_log with
  | some sink =>
      rw [hw] at h
      have hw2 : w2 = ⟨none, w.next_channel⟩ := by
        exact (Option.some.injEq _ _).mp h |>.symm ▸ rfl
      subst hw2
      exact ⟨rfl, rfl, rfl, rfl⟩
  | none =>
      rw [hw] at h
      exact absurd h (by simp)

/-- Witness for C3 at the concrete shutdown world `⟨some ⟨0⟩, 1⟩`. -/
theorem C3_witness :
    (⟨none, 1⟩ : PipelineWorld).global_log = none ∧
    (get_step ⟨none, 1⟩).spawned = true ∧
    (get_step ⟨none, 1⟩).world.global_log = some ⟨(⟨some ⟨0⟩, 1⟩ : PipelineWorld).next_channel⟩ ∧
    (get_step ⟨none, 1⟩).logger_channel = (⟨some ⟨0⟩, 1⟩ : PipelineWorld).next_channel :=
  C3_join_then_get_restarts ⟨some ⟨0⟩, 1⟩ ⟨none, 1⟩ rfl

/- ### Persistence serialization (serde_json) for C9 -/

/-- Modelled from the spec: the JSON document tree that `serde_json`
(`to_string_pretty` in `write_log_data_truncated`, `from_str` in
`read_log_data`) writes and parses; the serde_json crate itself is not part of
this repository, and §6 of the spec documents the persisted layout.  Numbers
are integers (the `i128` id and all counters serialize as integer literals);
text renders/parses losslessly at this level. -/
inductive Json where
  | num : Int → Json
  | str : String → Json
  | arr : List Json → Json
  | obj : List (String × Json) → Json

/-- Modelled from the spec: serde serialization of `std::time::Duration` as an
object with `secs` and `nanos` fields. -/
def encode_duration (d : Duration) : Json :=
  .obj [("secs", .num d.secs), ("nanos", .num d.nanos)]

/-- Modelled from the spec: derived serialization of `StructuredPanicInfo`. -/
def encode_panic_info (p : StructuredPanicInfo) : Json :=
  .obj [("line", .num p.line), ("file", .str p.file),
        ("message", .str p.message), ("backtrace", .str p.backtrace)]

/-- Modelled from the spec (§6): externally tagged serialization of `LogKind` —
`"Error"`, `"Warning"`, `"Information"`, `{"State": <string>}`,
`{"Panic": {…}}`. -/
def encode_level : LogKind → Json
  | .Error => .str "Error"
  | .Warning => .str "Warning"
  | .Information => .str "Information"
  | .Panic p => .obj [("Panic", encode_panic_info p)]
  | .State s => .obj [("State", .str s)]

/-- Modelled from the spec (§6): derived serialization of `StructuredLogMessage`. -/
def encode_message (m : StructuredLogMessage) : Json :=
  .obj [("time", encode_duration m.time), ("level", encode_level m.level),
        ("topic", .str m.topic), ("message", .str m.message)]

/-- Modelled from the spec (§6): derived serialization of `StructuredLogOutput`. -/
def encode_output (o : StructuredLogOutput) : Json :=
  .obj [("index", .num o.index), ("message", encode_message o.message)]

/-- Modelled from the spec (§6): derived serialization of `LogData`, the
Persistence Document; the `UniqueId` id serializes as a one-field struct
carrying its `i128` value. -/
def encode_log_data (d : LogData) : Json :=
  .obj [("id", .obj [("_unique", .num (i128_val d.id._unique))]),
        ("timestamp", .str d.timestamp),
        ("messages", .arr (d.messages.map encode_output))]

/-- Field lookup in a JSON object (derived serde deserializers accept fields
by name). -/
def get_field : List (String × Json) → String → Option Json
  | [], _ => none
  | (k2, v) :: rest, k => if k2 = k then some v else get_field rest k

/-- Parse a JSON number as an unsigned integer. -/
def as_nat : Json → Option Nat
  | .num z => if z < 0 then none else some z.toNat
  | _ => none

/-- Parse a JSON string. -/
def as_str : Json → Option String
  | .str s => some s
  | _ => none

/-- Modelled from the spec: deserialization of `Duration`. -/
def decode_duration : Json → Option Duration
  | .obj kvs => do
      let s ← get_field kvs "secs" >>= as_nat
      let n ← get_field kvs "nanos" >>= as_nat
      pure ⟨s, n⟩
  | _ => none

/-- Modelled from the spec: deserialization of `StructuredPanicInfo`. -/
def decode_panic_info : Json → Option StructuredPanicInfo
  | .obj kvs => do
      let line ← get_field kvs "line" >>= as_nat
      let file ← get_field kvs "file" >>= as_str
      let message ← get_field kvs "message" >>= as_str
      let backtrace ← get_field kvs "backtrace" >>= as_str
      pure ⟨line, file, message, backtrace⟩
  | _ => none

/-- Modelled from the spec (§6): deserialization of `LogKind`. -/
def decode_level : Json → Option LogKind
  | .str s =>
      if s = "Error" then some .Error
      else if s = "Warning" then some .Warning
      else if s = "Information" then some .Information
      else none
  | .obj [(k, v)] =>
      if k = "Panic" then (decode_panic_info v).map LogKind.Panic
      else if k = "State" then (as_str v).map LogKind.State
      else none
  | _ => none

/-- Modelled from the spec (§6): deserialization of `StructuredLogMessage`. -/
def decode_message : Json → Option StructuredLogMessage
  | .obj kvs => do
      let time ← get_field kvs "time" >>= decode_duration
      let level ← get_field kvs "level" >>= decode_level
      let topic ← get_field kvs "topic" >>= as_str
      let message ← get_field kvs "message" >>= as_str
      pure ⟨time, level, topic, message⟩
  | _ => none

/-- Modelled from the spec (§6): deserialization of `StructuredLogOutput`. -/
def decode_output : Json → Option StructuredLogOutput
  | .obj kvs => do
      let index ← get_field kvs "index" >>= as_nat
      let message ← get_field kvs "message" >>= decode_message
      pure ⟨index, message⟩
  | _ => none

/-- Deserialization of a `Vec<StructuredLogOutput>`, element by element. -/
def decode_outputs : List Json → Option (List StructuredLogOutput)
  | [] => some []
  | j :: js => do
      let o ← decode_output j
      let rest ← decode_outputs js
      pure (o :: rest)

/-- Modelled from the spec: deserialization of the `UniqueId` id field; an
integer outside the `i128` range is rejected. -/
def decode_unique_id : Json → Option UniqueId
  | .obj kvs => do
      let v ← get_field kvs "_unique"
      match v with
      | .num z =>
          if -(2 ^ 127) ≤ z ∧ z < 2 ^ 127 then
            some ⟨(if z < 0 then z + 2 ^ 128 else z).toNat⟩
          else none
      | _ => none
  | _ => none

/-- Modelled from the spec (§6): deserialization of the Persistence Document. -/
def decode_log_data : Json → Option LogData
  | .obj kvs => do
      let id ← get_field kvs "id" >>= decode_unique_id
      let timestamp ← get_field kvs "timestamp" >>= as_str
      let messages ← match get_field kvs "messages" with
        | some (.arr js) => decode_outputs js
        | _ => none
      pure ⟨id, timestamp, messages⟩
  | _ => none

theorem as_nat_natCast (n : Nat) : as_nat (Json.num (n : Int)) = some n := by
  simp [as_nat]

theorem decode_encode_duration (d : Duration) :
    decode_duration (encode_duration d) = some d := by
  simp [encode_duration, decode_duration, get_field, as_nat_natCast]

theorem decode_encode_panic_info (p : StructuredPanicInfo) :
    decode_panic_info (encode_panic_info p) = some p := by
  simp [encode_panic_info, decode_panic_info, get_field, as_str, as_nat_natCast]

theorem decode_encode_level (l : LogKind) :
    decode_level (encode_level l) = some l := by
  cases l with
  | Error => rfl
  | Warning => rfl
  | Information => rfl
  | Panic p => simp [encode_level, decode_level, decode_encode_panic_info]
  | State s => simp [encode_level, decode_level, as_str]

theorem decode_encode_message (m : StructuredLogMessage) :
    decode_message (encode_message m) = some m := by
  simp [encode_message, decode_message, get_field, as_str,
    decode_encode_duration, decode_encode_level]

theorem decode_encode_output (o : StructuredLogOutput) :
    decode_output (encode_output o) = some o := by
  simp [encode_output, decode_output, get_field, as_nat_natCast, decode_encode_message]

theorem decode_encode_outputs (os : List StructuredLogOutput) :
    decode_outputs (os.map encode_output) = some os := by
  induction os with
  | nil => rfl
  | cons o os ih => simp [decode_outputs, decode_encode_output, ih]

theorem decode_uid_num (z : Int) :
    decode_unique_id (Json.obj [("_unique", Json.num z)]) =
      (if -(2 ^ 127) ≤ z ∧ z < 2 ^ 127 then
        some ⟨(if z < 0 then z + 2 ^ 128 else z).toNat⟩
      else none) := rfl

theorem decode_encode_unique_id (u : UniqueId) (h : u._unique < 2 ^ 128) :
    decode_unique_id (Json.obj [("_unique", Json.num (i128_val u._unique))]) = some u := by
  rw [decode_uid_num]
  unfold i128_val
  by_cases hs : 2 ^ 127 ≤ u._unique
  · rw [if_pos hs]
    have hc1 : -(2 ^ 127) ≤ (u._unique : Int) - 2 ^ 128 ∧
        (u._unique : Int) - 2 ^ 128 < 2 ^ 127 := by
      constructor <;> omega
    rw [if_pos hc1, if_pos (by omega : (u._unique : Int) - 2 ^ 128 < 0)]
    have hx : ((u._unique : Int) - 2 ^ 128 + 2 ^ 128).toNat = u._unique := by omega
    rw [hx]
  · rw [if_neg hs]
    have hc1 : -(2 ^ 127) ≤ (u._unique : Int) ∧ (u._unique : Int) < 2 ^ 127 := by
      constructor <;> omega
    rw [if_pos hc1, if_neg (by omega : ¬ (u._unique : Int) < 0)]
    have hx : ((u._unique : Int)).toNat = u._unique := by omega
    rw [hx]

/-- C9: serializing a Persistence Document and deserializing the result yields
the document back — in particular an identical sequence of (index, message)
pairs, in the same order.  The hypothesis records the `i128` range invariant of
the stored session id's bit pattern. -/
theorem C9_log_data_roundtrip (d : LogData) (h : d.id._unique < 2 ^ 128) :
    decode_log_data (encode_log_data d) = some d ∧
    (decode_log_data (encode_log_data d)).map LogData.messages = some d.messages := by
  have hid := decode_encode_unique_id d.id h
  have hfull : decode_log_data (encode_log_data d) = some d := by
    simp [encode_log_data, decode_log_data, get_field, as_str, hid,
      decode_encode_outputs]
  exact ⟨hfull, by rw [hfull]; rfl⟩

/-- Witness for C9 at a concrete one-entry document. -/
theorem C9_witness :
    decode_log_data (encode_log_data
        ⟨⟨5⟩, "2024-01-01T00:00:00Z",
         [⟨0, ⟨⟨1, 2⟩, LogKind.Information, "general", "boot"⟩⟩]⟩) =
      some ⟨⟨5⟩, "2024-01-01T00:00:00Z",
         [⟨0, ⟨⟨1, 2⟩, LogKind.Information, "general", "boot"⟩⟩]⟩ ∧
    (decode_log_data (encode_log_data
        ⟨⟨5⟩, "2024-01-01T00:00:00Z",
         [⟨0, ⟨⟨1, 2⟩, LogKind.Information, "general", "boot"⟩⟩]⟩)).map LogData.messages =
      some [⟨0, ⟨⟨1, 2⟩, LogKind.Information, "general", "boot"⟩⟩] :=
  C9_log_data_roundtrip
    ⟨⟨5⟩, "2024-01-01T00:00:00Z",
     [⟨0, ⟨⟨1, 2⟩, LogKind.Information, "general", "boot"⟩⟩]⟩ (by norm_num)
